import Mathlib

set_option autoImplicit false

/-
Shallow embedding of the API Gateway
(src/sample-app/03-microservices/api-gateway/app.py).

Granularity of the model:
- HTTP methods are the five verbs the gateway registers (GET, POST, PUT,
  PATCH, DELETE).  CORS preflight (OPTIONS) and the automatic HEAD route
  are outside the model.
- A request path is its list of slash-separated segments ("/tasks/7" is
  ["tasks", "7"]; "/" is []).  Trailing-slash redirects are outside the
  model.
- Query parameters and headers arrive as association lists that may
  contain repeated keys (Starlette exposes them as multidicts); header
  keys are already lowercased by Starlette.  Python dict(...) over such a
  multidict is modelled by dictOf below.
- The network is a parameter: a function from the outbound call the
  gateway builds to a transport-level result.  The constructors of
  TransportResult mirror the except clauses of forward_request
  (httpx.ConnectError, httpx.TimeoutException, any other exception).
- A backend response carries the status code, its header multidict
  (repeated names possible, names lowercased by httpx) and the raw
  content bytes as a string.  forward_request applies the
  dict(response.headers) step of app.py, modelled by dictOfJoin: the
  httpx Headers getitem joins every value carried under a repeated name
  with a comma and a space, and dict(...) keeps one entry per distinct
  name in first-occurrence order.
- FastAPI renders HTTPException(status, detail) as the JSON object with
  single field "detail" holding that detail string.  The app installs a
  handler for status 404 (body detail "Resource not found").  The handler
  the app installs for status 500 is routed by Starlette to the
  ServerErrorMiddleware (Starlette treats the keys 500 and Exception
  specially when building the middleware stack), so it fires only for
  uncaught non-HTTPException faults; an HTTPException with status 500
  raised by forward_request is rendered by the default handler and keeps
  its own detail string.
- Starlette routing: routes are tried in registration order; the first
  route whose path regex matches and whose method set contains the
  request method handles the request; if some route matches positionally
  on the path but not on the method, the router raises HTTPException 405
  (default detail "Method Not Allowed"); if no route matches the path at
  all it raises HTTPException 404, which the installed handler turns into
  detail "Resource not found".  Before falling through to 404 (but after
  the 405 outcome), the router honours its default redirect_slashes
  setting: for an original path other than /, it forms the slash-toggled
  variant (rstrip of every trailing slash when the path ends in one,
  otherwise one appended slash) and, when any route matches that variant
  positionally — whatever the method — answers a 307 redirect to it.
  In segment encoding a trailing slash is a trailing empty segment, and
  an rstrip result consisting of no segments at all is the empty string,
  which no route pattern (all anchored at a leading slash) can match.
  The redirect target is modelled as its path segments; the query string
  the program carries along in the Location URL is outside the model.
  A path parameter segment matches any single non-empty segment at
  routing time; FastAPI then coerces it to the declared type (int for
  task_id), answering 422 with a validation body when the coercion
  fails.  intOfString stands in for that pydantic decimal-integer
  coercion.
-/

namespace Gateway

/-- The five HTTP verbs registered by the gateway app. -/
inductive Method where
  | GET
  | POST
  | PUT
  | PATCH
  | DELETE
  deriving DecidableEq, Repr

/-- Default base URL of the task service (os.getenv default in app.py). -/
def TASK_SERVICE_URL : String := "http://localhost:8003"

/-- Default base URL of the user service (placeholder backend). -/
def USER_SERVICE_URL : String := "http://localhost:8004"

/-- Default base URL of the project service (placeholder backend). -/
def PROJECT_SERVICE_URL : String := "http://localhost:8005"

/-- An inbound HTTP request as the gateway sees it: method, path
segments, query parameters and headers as multidicts (repeated keys
possible, header keys lowercased), and the raw request body bytes
(request.body() yields the empty byte string when there is none). -/
structure InboundRequest where
  method : Method
  pathSegs : List String
  query : List (String × String)
  headers : List (String × String)
  body : String
  deriving DecidableEq, Repr

/-- One step of Python dict construction: insert key k with value v,
overwriting the value in place if k is already present. -/
def updateDict (d : List (String × String)) (k v : String) :
    List (String × String) :=
  if d.any (fun p => p.1 == k) then
    d.map (fun p => if p.1 == k then (k, v) else p)
  else
    d ++ [(k, v)]

/-- Python dict(...) over a multidict: keys in first-occurrence order,
and for a repeated key the last value wins. -/
def dictOf (l : List (String × String)) : List (String × String) :=
  l.foldl (fun d p => updateDict d p.1 p.2) []

/-- Python dict.pop(k, None): drop the entry for key k if present. -/
def popKey (d : List (String × String)) (k : String) :
    List (String × String) :=
  d.filter (fun p => !(p.1 == k))

/-- Every value carried under header name k, in order of appearance. -/
def valsOf (k : String) (l : List (String × String)) : List String :=
  (l.filter (fun p => p.1 == k)).map Prod.snd

/-- The entries whose name differs from k. -/
def removeKey (k : String) (l : List (String × String)) :
    List (String × String) :=
  l.filter (fun p => !(p.1 == k))

/-- Fuel-indexed core of dictOfJoin; the fuel (initially the list
length, which only shrinks) keeps the recursion structural so the
kernel can evaluate it. -/
def dictOfJoinAux : Nat → List (String × String) → List (String × String)
  | _, [] => []
  | 0, _ :: _ => []
  | fuel + 1, (k, v) :: rest =>
      (k, String.intercalate ", " (v :: valsOf k rest)) ::
        dictOfJoinAux fuel (removeKey k rest)

/-- Python dict(...) over an httpx Headers multidict: one entry per
distinct header name in first-occurrence order, whose value is the
comma-space join of every value carried under that name (the httpx
Headers getitem semantics) — so two set-cookie entries a=1 and b=2
collapse into the single entry a=1, b=2. -/
def dictOfJoin (l : List (String × String)) : List (String × String) :=
  dictOfJoinAux l.length l

/-- The outbound HTTP call forward_request hands to httpx:
client.request(method=..., url=..., headers=..., content=..., params=...). -/
structure OutboundCall where
  method : Method
  url : String
  headers : List (String × String)
  content : Option String
  params : List (String × String)
  deriving DecidableEq, Repr

/-- Transport-level result of issuing an outbound call, partitioned the
way the except clauses of forward_request partition httpx behavior:
a normal response (any status code), a connection-establishment failure
(httpx.ConnectError), exceeding the timeout budget
(httpx.TimeoutException), or any other transport fault with its message. -/
inductive TransportResult where
  | ok (status : Nat) (headers : List (String × String)) (content : String)
  | connectError
  | timeoutError
  | otherError (msg : String)
  deriving DecidableEq, Repr

/-- A transport model: what the network does with each outbound call. -/
def Transport : Type := OutboundCall → TransportResult

/-- What forward_request produces before FastAPI renders it: either the
Response built from the backend response, or a raised
HTTPException(status_code, detail). -/
inductive ForwardResult where
  | success (status : Nat) (headers : List (String × String)) (content : String)
  | httpError (status : Nat) (detail : String)
  deriving DecidableEq, Repr

/-- The outbound call forward_request builds: url is service_url + path,
headers are dict(request.headers) with "host" popped, params are
dict(request.query_params), content is the body argument. -/
def buildCall (service_url : String) (path : String) (method : Method)
    (req : InboundRequest) (body : Option String) : OutboundCall :=
  { method := method
    url := service_url ++ path
    headers := popKey (dictOf req.headers) "host"
    content := body
    params := dictOf req.query }

/-- Model of forward_request in app.py: build the outbound call, issue
it, and either wrap the backend response — applying dict(response.headers)
when building the Response, which collapses repeated response header
names — or raise the translated HTTPException (503 connect failure, 504
timeout, 500 anything else).  The second component records the outbound
calls issued (exactly one). -/
def forward_request (service_url : String) (path : String) (method : Method)
    (req : InboundRequest) (body : Option String) (transport : Transport) :
    ForwardResult × List OutboundCall :=
  let call := buildCall service_url path method req body
  (match transport call with
    | .ok s hs c => .success s (dictOfJoin hs) c
    | .connectError => .httpError 503 ("Service unavailable: " ++ service_url)
    | .timeoutError => .httpError 504 ("Service timeout: " ++ service_url)
    | .otherError msg => .httpError 500 ("Gateway error: " ++ msg),
   [call])

/-- A client-visible response of the gateway app.  passthrough is the
Response built from a backend response; jsonDetail is a JSON body with
single field "detail" (rendered from an HTTPException or produced by an
installed handler); healthResp is the GET /health body; rootResp is the
GET / metadata body; validationError is the 422 body FastAPI produces
when path-parameter coercion fails; redirect307 is the slash-redirect
response of the router (status 307, Location at the target path,
modelled by its segments). -/
inductive GatewayResponse where
  | passthrough (status : Nat) (headers : List (String × String)) (content : String)
  | jsonDetail (status : Nat) (detail : String)
  | healthResp (gateway : String) (services : List (String × String))
  | rootResp
  | validationError
  | redirect307 (target : List String)
  deriving DecidableEq, Repr

/-- The HTTP status code each gateway response is sent with. -/
def statusOf : GatewayResponse → Nat
  | .passthrough s _ _ => s
  | .jsonDetail s _ => s
  | .healthResp _ _ => 200
  | .rootResp => 200
  | .validationError => 422
  | .redirect307 _ => 307

/-- FastAPI rendering of what forward_request produced: a Response
passes through; a raised HTTPException becomes the JSON detail body with
its status (the app has no handler intercepting 503, 504, or
HTTPException 500 — see the header comment on the Starlette treatment of
the status-500 handler). -/
def renderForward : ForwardResult → GatewayResponse
  | .success s hs c => .passthrough s hs c
  | .httpError s d => .jsonDetail s d

/-- Model of the tasks_route handler: forward to the task service at
path /tasks, reading the request body only for POST. -/
def tasks_route (transport : Transport) (req : InboundRequest) :
    GatewayResponse × List OutboundCall :=
  let body := if req.method = .POST then some req.body else none
  let r := forward_request TASK_SERVICE_URL "/tasks" req.method req body transport
  (renderForward r.1, r.2)

/-- Model of the task_by_id_route handler: forward to the task service
at path /tasks/{task_id} (task_id already coerced to an integer by
FastAPI), reading the request body only for PUT and PATCH. -/
def task_by_id_route (transport : Transport) (req : InboundRequest)
    (task_id : Int) : GatewayResponse × List OutboundCall :=
  let body := if req.method = .PUT ∨ req.method = .PATCH then some req.body else none
  let r := forward_request TASK_SERVICE_URL ("/tasks/" ++ toString task_id)
    req.method req body transport
  (renderForward r.1, r.2)

/-- Model of the task_status_route handler: forward to the task service
at path /tasks/{task_id}/status, always reading the request body. -/
def task_status_route (transport : Transport) (req : InboundRequest)
    (task_id : Int) : GatewayResponse × List OutboundCall :=
  let r := forward_request TASK_SERVICE_URL
    ("/tasks/" ++ toString task_id ++ "/status") req.method req
    (some req.body) transport
  (renderForward r.1, r.2)

/-- Model of the users_route handler: placeholder, always 501, no
outbound call. -/
def users_route (_req : InboundRequest) :
    GatewayResponse × List OutboundCall :=
  (.jsonDetail 501 "User service not implemented yet", [])

/-- Model of the projects_route handler: placeholder, always 501, no
outbound call. -/
def projects_route (_req : InboundRequest) :
    GatewayResponse × List OutboundCall :=
  (.jsonDetail 501 "Project service not implemented yet", [])

/-- The probe the health handler issues: GET TASK_SERVICE_URL/health
(no app-specified headers, body, or params). -/
def healthProbeCall : OutboundCall :=
  { method := .GET
    url := TASK_SERVICE_URL ++ "/health"
    headers := []
    content := none
    params := [] }

/-- Model of the health handler: probe the task service once; mark it
healthy when the probe answered 200, unhealthy on any other status, and
unreachable when any exception was raised (connect failure, timeout, or
any other fault); the gateway field is the literal "healthy"
unconditionally. -/
def health (transport : Transport) : GatewayResponse × List OutboundCall :=
  let taskStatus :=
    match transport healthProbeCall with
    | .ok s _ _ => if s = 200 then "healthy" else "unhealthy"
    | .connectError => "unreachable"
    | .timeoutError => "unreachable"
    | .otherError _ => "unreachable"
  (.healthResp "healthy" [("task-service", taskStatus)], [healthProbeCall])

/-- Model of the root handler: static metadata, no outbound call. -/
def root : GatewayResponse × List OutboundCall :=
  (.rootResp, [])

/-- One segment of a registered route pattern: a literal segment or a
path-parameter segment (Starlette compiles a parameter to a regex piece
matching one non-empty segment). -/
inductive Seg where
  | lit (s : String)
  | cap
  deriving DecidableEq, Repr

/-- Positional match of a pattern against a path, returning the captured
parameter segments in order; a parameter segment matches any single
non-empty segment. -/
def segsMatch : List Seg → List String → Option (List String)
  | [], [] => some []
  | .lit s :: ps, t :: ts => if s = t then segsMatch ps ts else none
  | .cap :: ps, t :: ts =>
      if t = "" then none else (segsMatch ps ts).map (fun cs => t :: cs)
  | _, _ => none

/-- Tags naming the seven registered handlers of the app. -/
inductive RouteTag where
  | rootT
  | healthT
  | tasksT
  | taskByIdT
  | taskStatusT
  | usersT
  | projectsT
  deriving DecidableEq, Repr

/-- One registered route: pattern, allowed methods, handler tag. -/
structure Route where
  pattern : List Seg
  methods : List Method
  tag : RouteTag
  deriving DecidableEq, Repr

/-- The routing table of the app, in registration order. -/
def appRoutes : List Route :=
  [ ⟨[], [.GET], .rootT⟩,
    ⟨[.lit "health"], [.GET], .healthT⟩,
    ⟨[.lit "tasks"], [.GET, .POST], .tasksT⟩,
    ⟨[.lit "tasks", .cap], [.GET, .PUT, .PATCH, .DELETE], .taskByIdT⟩,
    ⟨[.lit "tasks", .cap, .lit "status"], [.PATCH], .taskStatusT⟩,
    ⟨[.lit "users"], [.GET, .POST], .usersT⟩,
    ⟨[.lit "projects"], [.GET, .POST], .projectsT⟩ ]

/-- Outcome of route resolution: a handling route with its captures, or
a path-only match with a method mismatch (Starlette answers 405), or a
slash redirect to the given target path (Starlette answers 307), or no
positional match at all (Starlette answers 404). -/
inductive Resolution where
  | full (tag : RouteTag) (caps : List String)
  | methodNotAllowed
  | redirectSlash (target : List String)
  | notFound
  deriving DecidableEq, Repr

/-- Starlette router loop: first route matching path and method handles
the request; pathHit records whether some earlier route matched the path
positionally while rejecting the method. -/
def resolveList : List Route → Method → List String → Bool → Resolution
  | [], _, _, pathHit => if pathHit then .methodNotAllowed else .notFound
  | r :: rs, m, path, pathHit =>
      match segsMatch r.pattern path with
      | some caps =>
          if m ∈ r.methods then .full r.tag caps
          else resolveList rs m path true
      | none => resolveList rs m path pathHit

/-- Python rstrip of every trailing slash, in segment encoding: drop
every trailing empty segment. -/
def stripTrailingSlashes (path : List String) : List String :=
  (path.reverse.dropWhile (fun s => s == "")).reverse

/-- The redirect_slashes check the Starlette router runs when no route
matched the path positionally: for an original path other than / (the
empty segment list), form the slash-toggled variant — strip every
trailing slash when the path ends in one, otherwise append one — and
redirect to it when any route matches it positionally, whatever the
method.  A variant stripped down to no segments at all is the empty
string path, which no route pattern can match (they are all anchored at
a leading slash), so it never redirects. -/
def slashRedirectTarget (path : List String) : Option (List String) :=
  if path = [] then none
  else if path.getLast? = some "" then
    let alt := stripTrailingSlashes path
    if alt = [] then none
    else if appRoutes.any (fun r => (segsMatch r.pattern alt).isSome) then
      some alt
    else none
  else
    let alt := path ++ [""]
    if appRoutes.any (fun r => (segsMatch r.pattern alt).isSome) then
      some alt
    else none

/-- Route resolution for the app routing table: the router loop first
(its 405 outcome included), then the slash-redirect check, then 404. -/
def resolve (m : Method) (path : List String) : Resolution :=
  match resolveList appRoutes m path false with
  | .notFound =>
      match slashRedirectTarget path with
      | some alt => .redirectSlash alt
      | none => .notFound
  | r => r

/-- Value of a decimal digit character, none for any other character. -/
def digitVal (c : Char) : Option Nat :=
  if c.isDigit then some (c.toNat - 48) else none

/-- Accumulating left-to-right decimal evaluation of a character list;
fails on the first non-digit character. -/
def decDigitsAux : List Char → Nat → Option Nat
  | [], acc => some acc
  | c :: cs, acc =>
      match digitVal c with
      | some d => decDigitsAux cs (acc * 10 + d)
      | none => none

/-- A non-empty all-digit character list read as a natural number. -/
def decNat (cs : List Char) : Option Nat :=
  if cs.isEmpty then none else decDigitsAux cs 0

/-- Decimal-integer coercion pydantic applies to a path parameter
declared int: an optional sign followed by one or more decimal digits;
anything else is a validation failure.  Note the parse is value-level,
so a non-canonical spelling such as "0042" coerces to 42. -/
def intOfString (s : String) : Option Int :=
  match s.data with
  | [] => none
  | c :: cs =>
      if c = '-' then (decNat cs).map (fun n => -(n : Int))
      else if c = '+' then (decNat cs).map (fun n => (n : Int))
      else (decNat (c :: cs)).map (fun n => (n : Int))

/-- Dispatch to the matched handler; for the two routes declaring
task_id as int, the captured segment is first coerced by intOfString
(modelling pydantic), answering the 422 validation body on failure. -/
def dispatch (transport : Transport) (req : InboundRequest) :
    RouteTag → List String → GatewayResponse × List OutboundCall
  | .rootT, _ => root
  | .healthT, _ => health transport
  | .tasksT, _ => tasks_route transport req
  | .taskByIdT, caps =>
      match intOfString (caps.headD "") with
      | some n => task_by_id_route transport req n
      | none => (.validationError, [])
  | .taskStatusT, caps =>
      match intOfString (caps.headD "") with
      | some n => task_status_route transport req n
      | none => (.validationError, [])
  | .usersT, _ => users_route req
  | .projectsT, _ => projects_route req

/-- The whole app on one inbound request: resolve the route and dispatch,
with the Starlette 405 on a path-only match, the 307 slash redirect, and
the installed 404 handler body when nothing matches; returns the
response and the outbound calls issued while producing it. -/
def handle (transport : Transport) (req : InboundRequest) :
    GatewayResponse × List OutboundCall :=
  match resolve req.method req.pathSegs with
  | .full tag caps => dispatch transport req tag caps
  | .methodNotAllowed => (.jsonDetail 405 "Method Not Allowed", [])
  | .redirectSlash target => (.redirect307 target, [])
  | .notFound => (.jsonDetail 404 "Resource not found", [])

/-- A request carrying a repeated query key (GET /tasks?a=1&a=2). -/
def dupQueryReq : InboundRequest :=
  { method := .GET
    pathSegs := ["tasks"]
    query := [("a", "1"), ("a", "2")]
    headers := []
    body := "" }

/-- A request with distinct query keys and a host header. -/
def plainReq : InboundRequest :=
  { method := .GET
    pathSegs := ["tasks"]
    query := [("a", "1"), ("b", "2")]
    headers := [("host", "gw"), ("accept", "json")]
    body := "" }

/-- A PUT to the /users route (PUT is not in its allowed method set). -/
def putUsersReq : InboundRequest :=
  { method := .PUT
    pathSegs := ["users"]
    query := []
    headers := []
    body := "" }

/-- A GET to a path matching no registered pattern. -/
def noRouteReq : InboundRequest :=
  { method := .GET
    pathSegs := ["nonexistent"]
    query := []
    headers := []
    body := "" }

/-- A GET to /tasks/ — a trailing-slash path whose stripped variant
matches the /tasks route (the slash-redirect case). -/
def tasksSlashReq : InboundRequest :=
  { method := .GET
    pathSegs := ["tasks", ""]
    query := []
    headers := []
    body := "" }

/-- A GET to /tasks/abc: the placeholder segment is non-numeric. -/
def tasksAbcReq : InboundRequest :=
  { method := .GET
    pathSegs := ["tasks", "abc"]
    query := []
    headers := []
    body := "" }

/-- Inserting a key absent from d appends the pair at the end. -/
theorem updateDict_notMem (d : List (String × String)) (k v : String)
    (h : ∀ p ∈ d, p.1 ≠ k) : updateDict d k v = d ++ [(k, v)] := by
  have hc : ¬(d.any (fun p => p.1 == k) = true) := by
    simp only [List.any_eq_true, beq_iff_eq]
    rintro ⟨p, hp, hpk⟩
    exact h p hp hpk
  unfold updateDict
  rw [if_neg hc]

/-- Folding dict insertion over entries whose keys are all fresh just
appends them in order. -/
theorem foldl_updateDict (l : List (String × String)) :
    ∀ acc : List (String × String), (((acc ++ l).map Prod.fst).Nodup) →
      l.foldl (fun d p => updateDict d p.1 p.2) acc = acc ++ l := by
  induction l with
  | nil => intro acc _; simp
  | cons p l ih =>
      intro acc h
      have hnot : ∀ q ∈ acc, q.1 ≠ p.1 := by
        intro q hq heq
        rw [List.map_append, List.nodup_append] at h
        exact h.2.2 (List.mem_map_of_mem Prod.fst hq) (by simp [heq])
      rw [List.foldl_cons, updateDict_notMem acc p.1 p.2 hnot]
      have hacc : acc ++ [(p.1, p.2)] = acc ++ [p] := by simp
      rw [hacc]
      have h2 : (((acc ++ [p]) ++ l).map Prod.fst).Nodup := by
        simpa [List.append_assoc] using h
      simpa [List.append_assoc] using ih (acc ++ [p]) h2

/-- Python dict(...) is the identity on an association list whose keys
are pairwise distinct. -/
theorem dictOf_nodup (l : List (String × String))
    (h : (l.map Prod.fst).Nodup) : dictOf l = l := by
  simpa using foldl_updateDict l [] (by simpa using h)

/-- With pairwise distinct names and enough fuel, the join-collapse is
the identity. -/
theorem dictOfJoinAux_nodup (l : List (String × String)) :
    ∀ fuel, l.length ≤ fuel → (l.map Prod.fst).Nodup →
      dictOfJoinAux fuel l = l := by
  induction l with
  | nil => intro fuel _ _; cases fuel <;> rfl
  | cons p rest ih =>
      intro fuel hfuel hnodup
      cases fuel with
      | zero => simp at hfuel
      | succ f =>
          obtain ⟨k, v⟩ := p
          simp only [List.map_cons, List.nodup_cons] at hnodup
          have hk : ∀ q ∈ rest, ¬(q.1 = k) := by
            intro q hq heq
            exact hnodup.1 (heq ▸ List.mem_map_of_mem Prod.fst hq)
          have hvals : valsOf k rest = [] := by
            have hfil : rest.filter (fun p2 => p2.1 == k) = [] := by
              rw [List.filter_eq_nil_iff]
              intro q hq
              simpa using hk q hq
            rw [valsOf, hfil]
            rfl
          have hrem : removeKey k rest = rest := by
            rw [removeKey, List.filter_eq_self]
            intro q hq
            simpa using hk q hq
          have hlen : rest.length ≤ f := Nat.le_of_succ_le_succ (by simpa using hfuel)
          have hsingle : String.intercalate ", " [v] = v := rfl
          show (k, String.intercalate ", " (v :: valsOf k rest)) ::
              dictOfJoinAux f (removeKey k rest) = (k, v) :: rest
          rw [hvals, hsingle, hrem, ih f hlen hnodup.2]

/-- dict(response.headers) is the identity on a response header list
whose names are pairwise distinct. -/
theorem dictOfJoin_nodup (l : List (String × String))
    (h : (l.map Prod.fst).Nodup) : dictOfJoin l = l :=
  dictOfJoinAux_nodup l l.length (Nat.le_refl _) h

/-- When no route pattern matches the path, the router loop ends with
404 (or 405 if a path-only match was recorded before entering it). -/
theorem resolveList_noPathMatch (rs : List Route) (m : Method)
    (path : List String) :
    ∀ b : Bool, (∀ r ∈ rs, segsMatch r.pattern path = none) →
      resolveList rs m path b = if b then .methodNotAllowed else .notFound := by
  induction rs with
  | nil => intro b _; rfl
  | cons r rs ih =>
      intro b h
      have hr := h r (List.mem_cons_self r rs)
      simp only [resolveList, hr]
      exact ih b (fun r' hr' => h r' (List.mem_cons_of_mem r hr'))

/-- Once a path-only match has been recorded, a tail in which no route
accepts both path and method leaves the outcome at 405. -/
theorem resolveList_methodMiss (rs : List Route) (m : Method)
    (path : List String)
    (h : ∀ r ∈ rs, segsMatch r.pattern path = none ∨ m ∉ r.methods) :
    resolveList rs m path true = .methodNotAllowed := by
  induction rs with
  | nil => rfl
  | cons r rs ih =>
      have htail : ∀ r' ∈ rs, segsMatch r'.pattern path = none ∨ m ∉ r'.methods :=
        fun r' h' => h r' (List.mem_cons_of_mem r h')
      rcases h r (List.mem_cons_self r rs) with hr | hr
      · simp only [resolveList, hr]
        exact ih htail
      · cases hseg : segsMatch r.pattern path with
        | none =>
            simp only [resolveList, hseg]
            exact ih htail
        | some caps =>
            simp only [resolveList, hseg, if_neg hr]
            exact ih htail

/-- If some route pattern matches the path but every positionally
matching route rejects the method, resolution is methodNotAllowed. -/
theorem resolveList_someMatch (rs : List Route) (m : Method)
    (path : List String)
    (hex : ∃ r ∈ rs, segsMatch r.pattern path ≠ none)
    (h : ∀ r ∈ rs, segsMatch r.pattern path = none ∨ m ∉ r.methods) :
    resolveList rs m path false = .methodNotAllowed := by
  induction rs with
  | nil => rcases hex with ⟨r, hr, _⟩; cases hr
  | cons r rs ih =>
      have htail : ∀ r' ∈ rs, segsMatch r'.pattern path = none ∨ m ∉ r'.methods :=
        fun r' h' => h r' (List.mem_cons_of_mem r h')
      cases hseg : segsMatch r.pattern path with
      | none =>
          rcases hex with ⟨r', hr', hne⟩
          rcases List.mem_cons.mp hr' with rfl | hr'tail
          · exact absurd hseg hne
          · simp only [resolveList, hseg]
            exact ih ⟨r', hr'tail, hne⟩ htail
      | some caps =>
          have hm : m ∉ r.methods := by
            rcases h r (List.mem_cons_self r rs) with hr2 | hr2
            · rw [hseg] at hr2; cases hr2
            · exact hr2
          simp only [resolveList, hseg, if_neg hm]
          exact resolveList_methodMiss rs m path htail

/-- The /tasks/{task_id} route accepts any non-empty second segment for
the four methods it allows, capturing the segment. -/
theorem resolve_tasks_seg (m : Method) (seg : String) (hseg : seg ≠ "")
    (hm : m = .GET ∨ m = .PUT ∨ m = .PATCH ∨ m = .DELETE) :
    resolve m ["tasks", seg] = .full .taskByIdT [seg] := by
  rcases hm with rfl | rfl | rfl | rfl <;>
    simp [resolve, resolveList, appRoutes, segsMatch, hseg]

/-- The /tasks/{task_id}/status route accepts any non-empty middle
segment for PATCH, capturing the segment. -/
theorem resolve_tasks_status (seg : String) (hseg : seg ≠ "") :
    resolve .PATCH ["tasks", seg, "status"] = .full .taskStatusT [seg] := by
  simp [resolve, resolveList, appRoutes, segsMatch, hseg]

/-- C1: for every forwarded request, transport failures render as:
connect failure as 503 with detail naming the backend base URL, timeout
as 504 with detail naming the backend base URL, any other transport
fault as 500 with detail carrying the message — and every non-success
outcome of the forwarder is one of exactly these three. -/
theorem claim_C1 (service_url path : String) (method : Method)
    (req : InboundRequest) (body : Option String) (transport : Transport) :
    (transport (buildCall service_url path method req body) = .connectError →
      renderForward (forward_request service_url path method req body transport).1 =
        .jsonDetail 503 ("Service unavailable: " ++ service_url)) ∧
    (transport (buildCall service_url path method req body) = .timeoutError →
      renderForward (forward_request service_url path method req body transport).1 =
        .jsonDetail 504 ("Service timeout: " ++ service_url)) ∧
    (∀ msg, transport (buildCall service_url path method req body) = .otherError msg →
      renderForward (forward_request service_url path method req body transport).1 =
        .jsonDetail 500 ("Gateway error: " ++ msg)) ∧
    (∀ st d, renderForward (forward_request service_url path method req body transport).1 =
        .jsonDetail st d →
      (st = 503 ∧ d = "Service unavailable: " ++ service_url) ∨
      (st = 504 ∧ d = "Service timeout: " ++ service_url) ∨
      (st = 500 ∧ ∃ msg, d = "Gateway error: " ++ msg)) := by
  refine ⟨fun h => ?_, fun h => ?_, fun msg h => ?_, fun st d h => ?_⟩
  · simp [forward_request, renderForward, h]
  · simp [forward_request, renderForward, h]
  · simp [forward_request, renderForward, h]
  · cases hh : transport (buildCall service_url path method req body) with
    | ok s hs c => simp [forward_request, renderForward, hh] at h
    | connectError =>
        simp [forward_request, renderForward, hh] at h
        exact Or.inl ⟨h.1.symm, h.2.symm⟩
    | timeoutError =>
        simp [forward_request, renderForward, hh] at h
        exact Or.inr (Or.inl ⟨h.1.symm, h.2.symm⟩)
    | otherError msg =>
        simp [forward_request, renderForward, hh] at h
        exact Or.inr (Or.inr ⟨h.1.symm, msg, h.2.symm⟩)

/-- C1 witness: each of the three failure translations evaluated on a
concrete request against the task service base URL. -/
theorem claim_C1_witness :
    renderForward (forward_request TASK_SERVICE_URL "/tasks" .GET plainReq none
        (fun _ => .connectError)).1 =
      .jsonDetail 503 ("Service unavailable: " ++ TASK_SERVICE_URL) ∧
    renderForward (forward_request TASK_SERVICE_URL "/tasks" .GET plainReq none
        (fun _ => .timeoutError)).1 =
      .jsonDetail 504 ("Service timeout: " ++ TASK_SERVICE_URL) ∧
    renderForward (forward_request TASK_SERVICE_URL "/tasks" .GET plainReq none
        (fun _ => .otherError "boom")).1 =
      .jsonDetail 500 ("Gateway error: " ++ "boom") :=
  ⟨(claim_C1 TASK_SERVICE_URL "/tasks" .GET plainReq none (fun _ => .connectError)).1 rfl,
   (claim_C1 TASK_SERVICE_URL "/tasks" .GET plainReq none (fun _ => .timeoutError)).2.1 rfl,
   (claim_C1 TASK_SERVICE_URL "/tasks" .GET plainReq none (fun _ => .otherError "boom")).2.2.1
     "boom" rfl⟩

/-- C2 counterexample: a backend response carrying two set-cookie
headers reaches the client as a single comma-joined set-cookie entry,
because app.py builds the Response with dict(response.headers) — so
backend headers are not passed through unchanged (status and body
are). -/
theorem claim_C2_counterexample :
    (forward_request TASK_SERVICE_URL "/tasks" .GET plainReq none
        (fun _ => .ok 200 [("set-cookie", "a=1"), ("set-cookie", "b=2")] "B")).1 ≠
      .success 200 [("set-cookie", "a=1"), ("set-cookie", "b=2")] "B" ∧
    (forward_request TASK_SERVICE_URL "/tasks" .GET plainReq none
        (fun _ => .ok 200 [("set-cookie", "a=1"), ("set-cookie", "b=2")] "B")).1 =
      .success 200 [("set-cookie", "a=1, b=2")] "B" :=
  ⟨by decide, rfl⟩

/-- C2 amended: a normal backend response, whatever its status code,
passes through the forwarder with status and body unchanged and is
never reinterpreted; its headers pass through dict(response.headers),
which keeps one entry per distinct header name (first-occurrence
order) with the values of a repeated name comma-joined — so the headers
too are unchanged whenever no header name repeats. -/
theorem claim_C2_amended (service_url path : String) (method : Method)
    (req : InboundRequest) (body : Option String) (transport : Transport)
    (s : Nat) (hs : List (String × String)) (c : String)
    (h : transport (buildCall service_url path method req body) = .ok s hs c) :
    (forward_request service_url path method req body transport).1 =
      .success s (dictOfJoin hs) c ∧
    ((hs.map Prod.fst).Nodup →
      (forward_request service_url path method req body transport).1 =
        .success s hs c) ∧
    renderForward (forward_request service_url path method req body transport).1 =
      .passthrough s (dictOfJoin hs) c := by
  refine ⟨?_, fun hnd => ?_, ?_⟩
  · simp [forward_request, h]
  · simp [forward_request, h, dictOfJoin_nodup hs hnd]
  · simp [forward_request, renderForward, h]

/-- C2 amended witness: a backend 404 with a repeat-free header list
and its body passes through untouched (the gateway does not reinterpret
backend-level errors). -/
theorem claim_C2_amended_witness :
    (forward_request TASK_SERVICE_URL "/tasks" .GET plainReq none
        (fun _ => .ok 404 [("content-type", "application/json")] "err")).1 =
      .success 404 (dictOfJoin [("content-type", "application/json")]) "err" ∧
    (forward_request TASK_SERVICE_URL "/tasks" .GET plainReq none
        (fun _ => .ok 404 [("content-type", "application/json")] "err")).1 =
      .success 404 [("content-type", "application/json")] "err" ∧
    renderForward (forward_request TASK_SERVICE_URL "/tasks" .GET plainReq none
        (fun _ => .ok 404 [("content-type", "application/json")] "err")).1 =
      .passthrough 404 (dictOfJoin [("content-type", "application/json")]) "err" :=
  ⟨(claim_C2_amended TASK_SERVICE_URL "/tasks" .GET plainReq none
      (fun _ => .ok 404 [("content-type", "application/json")] "err")
      404 [("content-type", "application/json")] "err" rfl).1,
   (claim_C2_amended TASK_SERVICE_URL "/tasks" .GET plainReq none
      (fun _ => .ok 404 [("content-type", "application/json")] "err")
      404 [("content-type", "application/json")] "err" rfl).2.1 (by decide),
   (claim_C2_amended TASK_SERVICE_URL "/tasks" .GET plainReq none
      (fun _ => .ok 404 [("content-type", "application/json")] "err")
      404 [("content-type", "application/json")] "err" rfl).2.2⟩

/-- C3: every GET or POST to /users or /projects answers 501 with the
corresponding placeholder detail and issues zero outbound calls,
whatever the query, headers, body, or network behavior. -/
theorem claim_C3 (transport : Transport) (m : Method)
    (q hs : List (String × String)) (b : String)
    (hm : m = .GET ∨ m = .POST) :
    handle transport ⟨m, ["users"], q, hs, b⟩ =
      (.jsonDetail 501 "User service not implemented yet", []) ∧
    handle transport ⟨m, ["projects"], q, hs, b⟩ =
      (.jsonDetail 501 "Project service not implemented yet", []) := by
  rcases hm with rfl | rfl <;> exact ⟨rfl, rfl⟩

/-- C3 witness: GET /users and GET /projects evaluated concretely. -/
theorem claim_C3_witness :
    handle (fun _ => .connectError) ⟨.GET, ["users"], [], [], ""⟩ =
      (.jsonDetail 501 "User service not implemented yet", []) ∧
    handle (fun _ => .connectError) ⟨.GET, ["projects"], [], [], ""⟩ =
      (.jsonDetail 501 "Project service not implemented yet", []) :=
  claim_C3 (fun _ => .connectError) .GET [] [] "" (Or.inl rfl)

/-- C4 counterexample: with the repeated query key a=1,a=2 the outbound
call built by the forwarder carries params a=2 only — dict(...) collapses
repeated keys, so query parameters are not preserved exactly; the third
conjunct checks this is the call the app actually issues. -/
theorem claim_C4_counterexample :
    (buildCall TASK_SERVICE_URL "/tasks" .GET dupQueryReq none).params ≠
      dupQueryReq.query ∧
    (buildCall TASK_SERVICE_URL "/tasks" .GET dupQueryReq none).params =
      [("a", "2")] ∧
    (handle (fun _ => .ok 200 [] "") dupQueryReq).2 =
      [buildCall TASK_SERVICE_URL "/tasks" .GET dupQueryReq none] :=
  ⟨by decide, rfl, rfl⟩

/-- C4 amended: the outbound call preserves the method exactly; query
parameters and headers are passed through Python dict(...), which keeps
one entry per distinct key (last value wins), so a query with pairwise
distinct keys is preserved exactly, and headers with pairwise distinct
keys are carried in full except the host entry. -/
theorem claim_C4_amended (service_url path : String) (method : Method)
    (req : InboundRequest) (body : Option String) :
    (buildCall service_url path method req body).method = method ∧
    ((req.query.map Prod.fst).Nodup →
      (buildCall service_url path method req body).params = req.query) ∧
    ((req.headers.map Prod.fst).Nodup →
      (buildCall service_url path method req body).headers =
        req.headers.filter (fun p => !(p.1 == "host"))) := by
  refine ⟨rfl, fun h => ?_, fun h => ?_⟩
  · simp [buildCall, dictOf_nodup _ h]
  · simp [buildCall, popKey, dictOf_nodup _ h]

/-- C4 amended witness: a request with distinct keys is forwarded with
query intact and headers intact minus host. -/
theorem claim_C4_amended_witness :
    (buildCall TASK_SERVICE_URL "/tasks" .GET plainReq none).method = .GET ∧
    (buildCall TASK_SERVICE_URL "/tasks" .GET plainReq none).params =
      plainReq.query ∧
    (buildCall TASK_SERVICE_URL "/tasks" .GET plainReq none).headers =
      plainReq.headers.filter (fun p => !(p.1 == "host")) :=
  ⟨(claim_C4_amended TASK_SERVICE_URL "/tasks" .GET plainReq none).1,
   (claim_C4_amended TASK_SERVICE_URL "/tasks" .GET plainReq none).2.1 (by decide),
   (claim_C4_amended TASK_SERVICE_URL "/tasks" .GET plainReq none).2.2 (by decide)⟩

/-- C5 counterexample: PUT /users matches the /users pattern with a
method outside its allowed set, and the app answers 405 with detail
Method Not Allowed (the Starlette router outcome for a path-only
match), not 404 with detail Resource not found as claimed; no outbound
call is made either way. -/
theorem claim_C5_counterexample :
    handle (fun _ => .connectError) putUsersReq ≠
      (.jsonDetail 404 "Resource not found", []) ∧
    handle (fun _ => .connectError) putUsersReq =
      (.jsonDetail 405 "Method Not Allowed", []) :=
  ⟨by decide, rfl⟩

/-- C5 amended: a request whose path matches no registered pattern, and
whose slash-toggled variant is not redirected either, gets 404 with
detail Resource not found and no outbound call; a request whose path
matches some pattern while every positionally matching route rejects
its method gets 405 with detail Method Not Allowed and no outbound
call; and a request whose path matches no pattern but whose
slash-toggled variant matches one positionally gets the 307 slash
redirect to that variant, again with no outbound call. -/
theorem claim_C5_amended (transport : Transport) (req : InboundRequest) :
    ((∀ r ∈ appRoutes, segsMatch r.pattern req.pathSegs = none) →
      slashRedirectTarget req.pathSegs = none →
      handle transport req = (.jsonDetail 404 "Resource not found", [])) ∧
    ((∃ r ∈ appRoutes, segsMatch r.pattern req.pathSegs ≠ none) →
      (∀ r ∈ appRoutes, segsMatch r.pattern req.pathSegs = none ∨
        req.method ∉ r.methods) →
      handle transport req = (.jsonDetail 405 "Method Not Allowed", [])) ∧
    ((∀ r ∈ appRoutes, segsMatch r.pattern req.pathSegs = none) →
      ∀ alt, slashRedirectTarget req.pathSegs = some alt →
      handle transport req = (.redirect307 alt, [])) := by
  refine ⟨fun h hred => ?_, fun hex hall => ?_, fun h alt hred => ?_⟩
  · have hres : resolveList appRoutes req.method req.pathSegs false = .notFound := by
      simpa using resolveList_noPathMatch appRoutes req.method req.pathSegs false h
    simp [handle, resolve, hres, hred]
  · have hres : resolveList appRoutes req.method req.pathSegs false = .methodNotAllowed :=
      resolveList_someMatch appRoutes req.method req.pathSegs hex hall
    simp [handle, resolve, hres]
  · have hres : resolveList appRoutes req.method req.pathSegs false = .notFound := by
      simpa using resolveList_noPathMatch appRoutes req.method req.pathSegs false h
    simp [handle, resolve, hres, hred]

/-- C5 amended witness: an unknown path gets the 404 body, PUT /users
gets the 405 body, and GET /tasks/ gets the 307 redirect to /tasks, all
with zero outbound calls. -/
theorem claim_C5_amended_witness :
    handle (fun _ => .connectError) noRouteReq =
      (.jsonDetail 404 "Resource not found", []) ∧
    handle (fun _ => .connectError) putUsersReq =
      (.jsonDetail 405 "Method Not Allowed", []) ∧
    handle (fun _ => .connectError) tasksSlashReq =
      (.redirect307 ["tasks"], []) :=
  ⟨(claim_C5_amended (fun _ => .connectError) noRouteReq).1 (by decide) (by decide),
   (claim_C5_amended (fun _ => .connectError) putUsersReq).2.1 (by decide) (by decide),
   (claim_C5_amended (fun _ => .connectError) tasksSlashReq).2.2 (by decide)
     ["tasks"] (by decide)⟩

/-- C6 counterexample: GET /tasks/abc, whose placeholder segment is a
non-empty segment that is not a decimal integer, is answered with the
422 validation response and zero outbound calls — even against a
backend that would answer 200 — so the gateway does validate the
captured segment instead of forwarding it for the backend to
interpret. -/
theorem claim_C6_counterexample :
    handle (fun _ => .ok 200 [] "") tasksAbcReq = (.validationError, []) ∧
    statusOf (handle (fun _ => .ok 200 [] "") tasksAbcReq).1 = 422 ∧
    (handle (fun _ => .ok 200 [] "") tasksAbcReq).2 = [] :=
  ⟨rfl, rfl, rfl⟩

/-- C6 amended: a placeholder segment matches exactly one non-empty
path segment of any content at routing time (and the empty segment
never matches the pattern — a trailing-slash path is instead picked up
by the slash redirect of the router, see C5), but the gateway then
validates the captured segment as a decimal integer: a non-integer
segment is rejected with the 422 validation response and never
forwarded, while an integer segment is forwarded with its parsed value
spelled canonically in the outbound path. -/
theorem claim_C6_amended (transport : Transport) (seg : String)
    (q hs : List (String × String)) (b : String) (hseg : seg ≠ "") :
    resolve .GET ["tasks", seg] = .full .taskByIdT [seg] ∧
    segsMatch [Seg.lit "tasks", Seg.cap] ["tasks", ""] = none ∧
    (intOfString seg = none →
      handle transport ⟨.GET, ["tasks", seg], q, hs, b⟩ =
        (.validationError, [])) ∧
    (∀ n : Int, intOfString seg = some n →
      (handle transport ⟨.GET, ["tasks", seg], q, hs, b⟩).2 =
        [buildCall TASK_SERVICE_URL ("/tasks/" ++ toString n) .GET
          ⟨.GET, ["tasks", seg], q, hs, b⟩ none]) := by
  have hres : resolve .GET ["tasks", seg] = .full .taskByIdT [seg] :=
    resolve_tasks_seg .GET seg hseg (Or.inl rfl)
  refine ⟨hres, by decide, fun hint => ?_, fun n hint => ?_⟩
  · simp [handle, hres, dispatch, hint]
  · simp [handle, hres, dispatch, hint, task_by_id_route, forward_request]

/-- C6 amended witness: the segment abc is captured by routing, then
rejected with 422 and not forwarded; the segment 42 is forwarded to
/tasks/42. -/
theorem claim_C6_amended_witness :
    resolve .GET ["tasks", "abc"] = .full .taskByIdT ["abc"] ∧
    handle (fun _ => .ok 200 [] "") ⟨.GET, ["tasks", "abc"], [], [], ""⟩ =
      (.validationError, []) ∧
    (handle (fun _ => .ok 200 [] "") ⟨.GET, ["tasks", "42"], [], [], ""⟩).2 =
      [buildCall TASK_SERVICE_URL ("/tasks/" ++ toString (42 : Int)) .GET
        ⟨.GET, ["tasks", "42"], [], [], ""⟩ none] :=
  ⟨(claim_C6_amended (fun _ => .ok 200 [] "") "abc" [] [] "" (by decide)).1,
   (claim_C6_amended (fun _ => .ok 200 [] "") "abc" [] [] "" (by decide)).2.2.1
     (by decide),
   (claim_C6_amended (fun _ => .ok 200 [] "") "42" [] [] "" (by decide)).2.2.2
     42 (by decide)⟩

/-- C7: on every GET /health, the report marks the probed backend
healthy exactly when its probe returns status 200, unhealthy on any
other returned status, and unreachable when the probe raises (which
covers connection failure and timeout); and the gateway field is the
literal healthy unconditionally, whatever the transport does. -/
theorem claim_C7 (transport : Transport) :
    (∃ st, (health transport).1 = .healthResp "healthy" [("task-service", st)]) ∧
    (∀ s hs c, transport healthProbeCall = .ok s hs c →
      (health transport).1 = .healthResp "healthy"
        [("task-service", if s = 200 then "healthy" else "unhealthy")]) ∧
    ((transport healthProbeCall = .connectError ∨
        transport healthProbeCall = .timeoutError) →
      (health transport).1 =
        .healthResp "healthy" [("task-service", "unreachable")]) := by
  refine ⟨?_, fun s hs c h => by simp [health, h], ?_⟩
  · cases h : transport healthProbeCall with
    | ok s hs c =>
        exact ⟨if s = 200 then "healthy" else "unhealthy", by simp [health, h]⟩
    | connectError => exact ⟨"unreachable", by simp [health, h]⟩
    | timeoutError => exact ⟨"unreachable", by simp [health, h]⟩
    | otherError msg => exact ⟨"unreachable", by simp [health, h]⟩
  · rintro (h | h) <;> simp [health, h]

/-- C7 witness: probe answering 200 gives healthy, probe answering 503
gives unhealthy, timeout gives unreachable; gateway is healthy in each. -/
theorem claim_C7_witness :
    (health (fun _ => .ok 200 [] "")).1 =
      .healthResp "healthy" [("task-service", "healthy")] ∧
    (health (fun _ => .ok 503 [] "")).1 =
      .healthResp "healthy" [("task-service", "unhealthy")] ∧
    (health (fun _ => .timeoutError)).1 =
      .healthResp "healthy" [("task-service", "unreachable")] :=
  ⟨(claim_C7 (fun _ => .ok 200 [] "")).2.1 200 [] "" rfl,
   (claim_C7 (fun _ => .ok 503 [] "")).2.1 503 [] "" rfl,
   (claim_C7 (fun _ => .timeoutError)).2.2 (Or.inr rfl)⟩

/-- C9: the outbound call carries the request body exactly for POST on
/tasks, PUT and PATCH on /tasks/{task_id}, and PATCH on
/tasks/{task_id}/status; GET and DELETE forward with no body even when
the client supplied one (the body b below is arbitrary). -/
theorem claim_C9 (transport : Transport) (q hs : List (String × String))
    (b : String) (m : Method) (seg : String) (n : Int)
    (hseg : seg ≠ "") (hint : intOfString seg = some n) :
    (m = .GET ∨ m = .POST →
      (handle transport ⟨m, ["tasks"], q, hs, b⟩).2 =
        [buildCall TASK_SERVICE_URL "/tasks" m ⟨m, ["tasks"], q, hs, b⟩
          (if m = .POST then some b else none)]) ∧
    (m = .GET ∨ m = .PUT ∨ m = .PATCH ∨ m = .DELETE →
      (handle transport ⟨m, ["tasks", seg], q, hs, b⟩).2 =
        [buildCall TASK_SERVICE_URL ("/tasks/" ++ toString n) m
          ⟨m, ["tasks", seg], q, hs, b⟩
          (if m = .PUT ∨ m = .PATCH then some b else none)]) ∧
    (handle transport ⟨.PATCH, ["tasks", seg, "status"], q, hs, b⟩).2 =
      [buildCall TASK_SERVICE_URL ("/tasks/" ++ toString n ++ "/status") .PATCH
        ⟨.PATCH, ["tasks", seg, "status"], q, hs, b⟩ (some b)] := by
  have hstat : resolve .PATCH ["tasks", seg, "status"] = .full .taskStatusT [seg] :=
    resolve_tasks_status seg hseg
  refine ⟨fun hm => ?_, fun hm => ?_, ?_⟩
  · rcases hm with rfl | rfl <;> rfl
  · have hres : resolve m ["tasks", seg] = .full .taskByIdT [seg] :=
      resolve_tasks_seg m seg hseg hm
    rcases hm with rfl | rfl | rfl | rfl <;>
      simp [handle, hres, dispatch, hint, task_by_id_route, forward_request]
  · simp [handle, hstat, dispatch, hint, task_status_route, forward_request]

/-- C9 witness: the four body regimes evaluated concretely on
/tasks, /tasks/7 and /tasks/7/status with client body B. -/
theorem claim_C9_witness :
    (handle (fun _ => .ok 200 [] "") ⟨.GET, ["tasks"], [], [], "B"⟩).2 =
      [buildCall TASK_SERVICE_URL "/tasks" .GET
        ⟨.GET, ["tasks"], [], [], "B"⟩ none] ∧
    (handle (fun _ => .ok 200 [] "") ⟨.POST, ["tasks"], [], [], "B"⟩).2 =
      [buildCall TASK_SERVICE_URL "/tasks" .POST
        ⟨.POST, ["tasks"], [], [], "B"⟩ (some "B")] ∧
    (handle (fun _ => .ok 200 [] "") ⟨.DELETE, ["tasks", "7"], [], [], "B"⟩).2 =
      [buildCall TASK_SERVICE_URL "/tasks/7" .DELETE
        ⟨.DELETE, ["tasks", "7"], [], [], "B"⟩ none] ∧
    (handle (fun _ => .ok 200 [] "") ⟨.PATCH, ["tasks", "7", "status"], [], [], "B"⟩).2 =
      [buildCall TASK_SERVICE_URL "/tasks/7/status" .PATCH
        ⟨.PATCH, ["tasks", "7", "status"], [], [], "B"⟩ (some "B")] :=
  ⟨(claim_C9 (fun _ => .ok 200 [] "") [] [] "B" .GET "7" 7 (by decide) (by decide)).1
     (Or.inl rfl),
   (claim_C9 (fun _ => .ok 200 [] "") [] [] "B" .POST "7" 7 (by decide) (by decide)).1
     (Or.inr rfl),
   (claim_C9 (fun _ => .ok 200 [] "") [] [] "B" .DELETE "7" 7 (by decide) (by decide)).2.1
     (by simp),
   (claim_C9 (fun _ => .ok 200 [] "") [] [] "B" .PATCH "7" 7 (by decide) (by decide)).2.2⟩

/-- C10: every health report has a services map whose key set is
exactly the single name task-service, and the only probe issued goes to
the task service health endpoint — the user and project backends are
never probed. -/
theorem claim_C10 (transport : Transport) :
    (∃ st, (health transport).1 = .healthResp "healthy" [("task-service", st)]) ∧
    (health transport).2 = [healthProbeCall] ∧
    healthProbeCall.url = TASK_SERVICE_URL ++ "/health" := by
  refine ⟨?_, rfl, rfl⟩
  cases h : transport healthProbeCall with
  | ok s hs c =>
      exact ⟨if s = 200 then "healthy" else "unhealthy", by simp [health, h]⟩
  | connectError => exact ⟨"unreachable", by simp [health, h]⟩
  | timeoutError => exact ⟨"unreachable", by simp [health, h]⟩
  | otherError msg => exact ⟨"unreachable", by simp [health, h]⟩

end Gateway
